import Mathlib

/-!
Shallow embedding of the Employee Management API (FastAPI + SQLAlchemy + SQLite):
`app/models.py` (table rows), `app/schemas.py` (request validation) and
`app/main.py` (the five handlers).  The relational store is modelled as the
list of employee rows in insertion (rowid) order together with the department
rows and the autoincrement counter.  ORM object attributes may hold `None`
(`Option`), mirroring the Python objects; times are abstract `Nat` instants
and `salary` is the exact number of cents of the `Numeric(10, 2)` column.
-/

namespace EmployeeApi

abbrev Time := Nat

/-- Row of the `departments` table (`models.py`, class `Department`). -/
structure DepartmentRow where
  id : Nat
  name : String
  code : String
deriving Repr, DecidableEq

/-- Row of the `employees` table (`models.py`, class `Employee`).  Every
column that a Python ORM attribute can hold as `None` is `Option`-typed;
`salary` is in cents. -/
structure EmployeeRow where
  id : Nat
  first_name : Option String
  last_name : Option String
  email : Option String
  department_id : Option Nat
  position : Option String
  salary : Option Int
  is_active : Option Bool
  created_at : Option Time
  updated_at : Option Time
deriving Repr, DecidableEq

/-- The persistent store: both tables plus the rowid autoincrement counter.
`employees` is kept in insertion (rowid) order, the order an unordered
SQLite table scan returns. -/
structure Store where
  departments : List DepartmentRow
  employees : List EmployeeRow
  next_id : Nat
deriving Repr, DecidableEq

/-- The error outcomes of a request: the two business errors raised by the
handlers (`HTTPException` with status 404 / 409 in `main.py`), and the
store-level `IntegrityError` a constraint violation raises at
`db.commit()`, which no handler catches and which therefore surfaces as a
generic 500 server fault. -/
inductive ApiError where
  | notFound (detail : String)
  | conflict (detail : String)
  | integrityError (detail : String)
deriving Repr, DecidableEq

def ApiError.status : ApiError → Nat
  | .notFound _ => 404
  | .conflict _ => 409
  | .integrityError _ => 500

/-- HTTP status of a handler outcome (`okCode` is the route's success code). -/
def respStatus (okCode : Nat) : Except ApiError α → Nat
  | .ok _ => okCode
  | .error e => e.status

/-- Python `str(...)` of an optional value (`None` prints as "None"). -/
def pyStr [ToString α] : Option α → String
  | none => "None"
  | some v => toString v

/-! ### Search: SQL `LIKE` matching

`list_employees` filters with `col.ilike(f"%{search}%")`, rendered on SQLite
as `lower(col) LIKE lower(pattern)`: `%` matches any sequence, `_` matches
any single character, every other pattern character matches itself. -/

/-- SQL `LIKE` pattern matching over (already lowercased) characters:
`%` consumes any (possibly empty) sequence — i.e. the rest of the pattern
must match some suffix of the text — `_` consumes exactly one character,
and any other pattern character matches only itself. -/
def likeMatch : List Char → List Char → Bool
  | [], cs => cs.isEmpty
  | p :: ps, cs =>
    if p == '%' then
      cs.tails.any (fun t => likeMatch ps t)
    else
      match cs with
      | [] => false
      | c :: cs2 => (p == '_' || p == c) && likeMatch ps cs2

/-- ASCII lowercasing of a string into its character list (SQLite `lower`). -/
def lowerChars (s : String) : List Char := s.data.map Char.toLower

/-- `column.ilike(pattern)` on one nullable column: SQL comparisons against
`NULL` are not true, so a `NULL` column never matches. -/
def colLike (pattern : String) : Option String → Bool
  | none => false
  | some v => likeMatch (lowerChars pattern) (lowerChars v)

/-- The search disjunction of `list_employees` (`main.py` lines 99-105). -/
def searchPred (search : String) (e : EmployeeRow) : Bool :=
  let term := "%" ++ search ++ "%"
  colLike term e.first_name || colLike term e.last_name || colLike term e.email

/-! ### GET /api/v1/employees -/

/-- Validated query parameters of `list_employees`.  FastAPI enforces
`page ≥ 1` and `1 ≤ page_size ≤ 100` before the handler runs. -/
structure ListParams where
  page : Nat := 1
  page_size : Nat := 20
  department_id : Option Nat := none
  is_active : Option Bool := none
  search : Option String := none
deriving Repr, DecidableEq

/-- The filter chain of `list_employees` (`main.py` lines 93-105): exact
matches on `department_id` and `is_active` when given, then the search
disjunction; the Python guard `if search:` skips both a missing and an
empty search string. -/
def employeeQuery (s : Store) (p : ListParams) : List EmployeeRow :=
  let q0 := s.employees
  let q1 := match p.department_id with
    | none => q0
    | some d => q0.filter (fun e => e.department_id == some d)
  let q2 := match p.is_active with
    | none => q1
    | some b => q1.filter (fun e => e.is_active == some b)
  match p.search with
  | none => q2
  | some str => if str.isEmpty then q2 else q2.filter (searchPred str)

structure EmployeeListResponse where
  items : List EmployeeRow
  total : Nat
  page : Nat
  page_size : Nat
  total_pages : Nat
deriving Repr, DecidableEq

/-- Handler `list_employees` (`main.py` lines 107-117).
`(total + page_size - 1) / page_size` is `math.ceil(total / page_size)`
for positive integers. -/
def list_employees (s : Store) (p : ListParams) : EmployeeListResponse :=
  let q := employeeQuery s p
  let total := q.length
  let total_pages := if total > 0 then (total + p.page_size - 1) / p.page_size else 1
  let items := (q.drop ((p.page - 1) * p.page_size)).take p.page_size
  ⟨items, total, p.page, p.page_size, total_pages⟩

/-! ### POST /api/v1/employees -/

/-- A parsed `EmployeeCreate` body (`schemas.py`).  `is_active` defaults to
`true`; `salary` is in cents. -/
structure EmployeeCreate where
  first_name : String
  last_name : String
  email : String
  department_id : Nat
  position : String
  salary : Int
  is_active : Bool := true
deriving Repr, DecidableEq

/-- The `Field` constraints of `EmployeeCreate` (`schemas.py` lines 12-20):
name/position length bounds, `department_id ≥ 1`, `salary > 0` (the two
decimal places are inherent in the cents representation).  `emailOk` is the
syntactic `EmailStr` validator, an external library the handlers never
inspect beyond pass/fail. -/
def EmployeeCreate.validFields (emailOk : String → Bool) (p : EmployeeCreate) : Bool :=
  (1 ≤ p.first_name.length && p.first_name.length ≤ 100) &&
  (1 ≤ p.last_name.length && p.last_name.length ≤ 100) &&
  emailOk p.email &&
  (1 ≤ p.department_id) &&
  (1 ≤ p.position.length && p.position.length ≤ 200) &&
  (0 < p.salary)

/-- The freshly inserted row: payload fields, autoincrement id, column
default `created_at = now`, `updated_at` NULL (`models.py` lines 33-42). -/
def EmployeeRow.ofCreate (p : EmployeeCreate) (id : Nat) (t : Time) : EmployeeRow :=
  ⟨id, some p.first_name, some p.last_name, some p.email, some p.department_id,
   some p.position, some p.salary, some p.is_active, some t, none⟩

/-- Handler `create_employee` (`main.py` lines 132-151): duplicate-email
check first, then department existence, then insert-and-commit.  Both error
paths raise before any mutation, so they return the store unchanged. -/
def create_employee (s : Store) (p : EmployeeCreate) (t : Time) :
    Except ApiError EmployeeRow × Store :=
  match s.employees.find? (fun e => e.email == some p.email) with
  | some _ => (.error (.conflict ("Email " ++ p.email ++ " already exists")), s)
  | none =>
    match s.departments.find? (fun d => d.id == p.department_id) with
    | none =>
      (.error (.notFound ("Department " ++ toString p.department_id ++ " not found")), s)
    | some _ =>
      let row := EmployeeRow.ofCreate p s.next_id t
      (.ok row, ⟨s.departments, s.employees ++ [row], s.next_id + 1⟩)

/-! ### PUT /api/v1/employees/{id} -/

/-- One field of a merge-patch body: absent, or present with a (possibly
null) value.  Pydantic's `exclude_unset` keeps a field present even when its
value is null. -/
inductive FieldPatch (α : Type) where
  | unset : FieldPatch α
  | set : Option α → FieldPatch α
deriving Repr, DecidableEq

/-- `setattr(employee, field, value)` for one field of the patch loop. -/
def FieldPatch.apply : FieldPatch α → Option α → Option α
  | .unset, old => old
  | .set v, _ => v

/-- Whether flushing this field emits a change: present and not equal to the
committed attribute value (SQLAlchemy compares with the column type's `==`). -/
def FieldPatch.changes [BEq α] : FieldPatch α → Option α → Bool
  | .unset, _ => false
  | .set v, old => !(v == old)

/-- A present, non-null value must satisfy the field's constraints; an
absent field and an explicit null always validate. -/
def FieldPatch.okWhenSome (check : α → Bool) : FieldPatch α → Bool
  | .unset => true
  | .set none => true
  | .set (some v) => check v

/-- A parsed `EmployeeUpdate` body (`schemas.py` lines 28-36): every field
optional, i.e. possibly absent and admitting null. -/
structure EmployeeUpdate where
  first_name : FieldPatch String := .unset
  last_name : FieldPatch String := .unset
  email : FieldPatch String := .unset
  department_id : FieldPatch Nat := .unset
  position : FieldPatch String := .unset
  salary : FieldPatch Int := .unset
  is_active : FieldPatch Bool := .unset
deriving Repr, DecidableEq

/-- The `Field` constraints of `EmployeeUpdate` (`schemas.py` lines 30-36);
constraints apply only to present, non-null values. -/
def EmployeeUpdate.validFields (emailOk : String → Bool) (u : EmployeeUpdate) : Bool :=
  u.first_name.okWhenSome (fun v => 1 ≤ v.length && v.length ≤ 100) &&
  u.last_name.okWhenSome (fun v => 1 ≤ v.length && v.length ≤ 100) &&
  u.email.okWhenSome emailOk &&
  u.department_id.okWhenSome (fun v => 1 ≤ v) &&
  u.position.okWhenSome (fun v => 1 ≤ v.length && v.length ≤ 200) &&
  u.salary.okWhenSome (fun v => 0 < v) &&
  u.is_active.okWhenSome (fun _ => true)

/-- The empty patch body `{}`. -/
def EmployeeUpdate.empty : EmployeeUpdate := {}

/-- The `setattr` loop (`main.py` lines 218-219) over the fields present in
`update_data`. -/
def applyPatch (u : EmployeeUpdate) (e : EmployeeRow) : EmployeeRow :=
  { e with
    first_name := u.first_name.apply e.first_name
    last_name := u.last_name.apply e.last_name
    email := u.email.apply e.email
    department_id := u.department_id.apply e.department_id
    position := u.position.apply e.position
    salary := u.salary.apply e.salary
    is_active := u.is_active.apply e.is_active }

/-- A flush of this field assigns NULL: the field is present, differs from
the committed value (so it is part of the UPDATE's SET clause), and its
value is null. -/
def FieldPatch.writesNull [BEq α] : FieldPatch α → Option α → Bool
  | .unset, _ => false
  | .set v, old => !(v == old) && v.isNone

/-- The UPDATE emitted at `db.commit()` assigns NULL to a column declared
`nullable=False` (`models.py` lines 34-39: `first_name`, `last_name`,
`email`, `department_id`, `position`, `salary`; `is_active` and the
timestamps are nullable).  SQLite then rejects the UPDATE with a NOT NULL
constraint violation, raised to the handler as `IntegrityError`. -/
def notNullViolation (u : EmployeeUpdate) (e : EmployeeRow) : Bool :=
  u.first_name.writesNull e.first_name ||
  u.last_name.writesNull e.last_name ||
  u.email.writesNull e.email ||
  u.department_id.writesNull e.department_id ||
  u.position.writesNull e.position ||
  u.salary.writesNull e.salary

/-- Whether `db.commit()` emits an UPDATE for the row: some present field
differs from the committed value.  Only then does the `onupdate` hook of
`updated_at` fire (`models.py` line 42). -/
def patchChanges (u : EmployeeUpdate) (e : EmployeeRow) : Bool :=
  u.first_name.changes e.first_name ||
  u.last_name.changes e.last_name ||
  u.email.changes e.email ||
  u.department_id.changes e.department_id ||
  u.position.changes e.position ||
  u.salary.changes e.salary ||
  u.is_active.changes e.is_active

/-- The referential check of the patch (`main.py` lines 197-203): run only
when `department_id` is present; `Department.id == None` matches no row, so
an explicit null fails the check. -/
def deptPatchOk (s : Store) : FieldPatch Nat → Bool
  | .unset => true
  | .set v => (s.departments.find? (fun d => some d.id == v)).isSome

/-- The uniqueness check of the patch (`main.py` lines 206-216): run only
when `email` is present, and excluding the row being updated. -/
def emailPatchConflict (s : Store) (eid : Nat) : FieldPatch String → Bool
  | .unset => false
  | .set v => (s.employees.find? (fun e => e.email == v && !(e.id == eid))).isSome

/-- Handler `update_employee` (`main.py` lines 185-224): 404 on unknown id,
then the referential check, then the uniqueness check, then the `setattr`
loop and commit.  The UPDATE writes the new values at the row's primary key
and fires `onupdate` on `updated_at` exactly when some column value
changed; if the UPDATE assigns NULL to a `nullable=False` column, the store
rejects it at commit with `IntegrityError` (a 500 for the caller), the
session is closed without committing, and nothing is persisted. -/
def update_employee (s : Store) (eid : Nat) (u : EmployeeUpdate) (t : Time) :
    Except ApiError EmployeeRow × Store :=
  match s.employees.find? (fun e => e.id == eid) with
  | none => (.error (.notFound ("Employee " ++ toString eid ++ " not found")), s)
  | some emp =>
    if !(deptPatchOk s u.department_id) then
      (.error (.notFound ("Department " ++
        (match u.department_id with | .unset => "" | .set v => pyStr v) ++ " not found")), s)
    else if emailPatchConflict s eid u.email then
      (.error (.conflict ("Email " ++
        (match u.email with | .unset => "" | .set v => pyStr v) ++ " already exists")), s)
    else if notNullViolation u emp then
      (.error (.integrityError "NOT NULL constraint failed"), s)
    else
      let patched := applyPatch u emp
      let row := if patchChanges u emp then { patched with updated_at := some t } else patched
      (.ok row,
       ⟨s.departments, s.employees.map (fun e => if e.id == eid then row else e), s.next_id⟩)

/-! ### DELETE /api/v1/employees/{id} -/

/-- Handler `delete_employee` (`main.py` lines 237-246): 404 on unknown id,
else delete the row at its primary key. -/
def delete_employee (s : Store) (eid : Nat) : Except ApiError Unit × Store :=
  match s.employees.find? (fun e => e.id == eid) with
  | none => (.error (.notFound ("Employee " ++ toString eid ++ " not found")), s)
  | some _ =>
    (.ok (), ⟨s.departments, s.employees.eraseP (fun e => e.id == eid), s.next_id⟩)

/-! ### GET /api/v1/departments -/

/-- Live number of employees referencing department `did`: the
`Department.employees` relationship is the set of employee rows whose
`department_id` foreign key equals the department's id, and
`employee_count` is its length (`models.py` lines 22-26). -/
def employeeCountOf (s : Store) (did : Nat) : Nat :=
  (s.employees.filter (fun e => e.department_id == some did)).length

structure DepartmentResponse where
  id : Nat
  name : String
  code : String
  employee_count : Nat
deriving Repr, DecidableEq

/-- Handler `list_departments` (`main.py` lines 258-260): every department
with its count computed from the live rows at read time. -/
def list_departments (s : Store) : List DepartmentResponse :=
  s.departments.map (fun d => ⟨d.id, d.name, d.code, employeeCountOf s d.id⟩)

/-! ### Spec-side definitions (for refinement comparisons) -/

/-- Modelled from the spec: search "matches employees whose first_name,
last_name, OR email contains the search string as a substring,
case-insensitively". -/
def specSearchMatch (search : String) (e : EmployeeRow) : Prop :=
  (∃ v, e.first_name = some v ∧ lowerChars search <:+: lowerChars v) ∨
  (∃ v, e.last_name = some v ∧ lowerChars search <:+: lowerChars v) ∨
  (∃ v, e.email = some v ∧ lowerChars search <:+: lowerChars v)

instance (search : String) (e : EmployeeRow) : Decidable (specSearchMatch search e) := by
  unfold specSearchMatch
  infer_instance

/-- The combined filter predicate: department and activity exact matches
ANDed with the search condition (skipped for an absent or empty search). -/
def matchesAll (p : ListParams) (e : EmployeeRow) : Bool :=
  (match p.department_id with | none => true | some d => e.department_id == some d) &&
  ((match p.is_active with | none => true | some b => e.is_active == some b) &&
   (match p.search with
    | none => true
    | some str => if str.isEmpty then true else searchPred str e))

/-! ### Concrete fixtures, used by witnesses and counterexamples -/

def demoDepartments : List DepartmentRow :=
  [⟨1, "Engineering", "ENG"⟩, ⟨2, "Human Resources", "HR"⟩]

def demoEmp1 : EmployeeRow :=
  ⟨1, some "Alice", some "Smith", some "alice@co.com", some 1,
   some "Dev", some 800000, some true, some 10, none⟩

def demoEmp2 : EmployeeRow :=
  ⟨2, some "Bob", some "Jones", some "bob@co.com", some 1,
   some "Lead", some 1200000, some true, some 11, none⟩

def demoStore : Store := ⟨demoDepartments, [demoEmp1, demoEmp2], 3⟩

def demoPayload : EmployeeCreate :=
  ⟨"Carol", "Diaz", "carol@co.com", 2, "HR Analyst", 700000, true⟩

/-! ### Shared helper lemmas -/

/-- The sequential filter chain of the listing query equals one filter with
the conjunction of the conditions. -/
theorem employeeQuery_eq_filter (s : Store) (p : ListParams) :
    employeeQuery s p = s.employees.filter (fun e => matchesAll p e) := by
  obtain ⟨page, ps, dep, act, se⟩ := p
  cases dep <;> cases act <;> cases se <;>
    simp only [employeeQuery, matchesAll] <;>
    first
      | (split <;>
          simp_all [List.filter_filter, Bool.and_comm, Bool.and_assoc, Bool.and_left_comm])
      | simp [List.filter_filter, Bool.and_comm, Bool.and_assoc, Bool.and_left_comm]

/-- `(a + b - 1) / b` is the exact ceiling of `a / b`: the least multiple
bound from below and above. -/
theorem ceil_div_spec (a b : Nat) (hb : 0 < b) (ha : 0 < a) :
    a ≤ ((a + b - 1) / b) * b ∧ ((a + b - 1) / b) * b < a + b := by
  have h1 : a + b - 1 = (a - 1) + b := by omega
  rw [h1, Nat.add_div_right _ hb]
  have hdm := Nat.div_add_mod (a - 1) b
  have hmod : (a - 1) % b < b := Nat.mod_lt _ hb
  constructor
  · calc a ≤ b * ((a - 1) / b) + b := by omega
      _ = ((a - 1) / b + 1) * b := by ring
  · calc ((a - 1) / b + 1) * b = b * ((a - 1) / b) + b := by ring
      _ < a + b := by omega

/-! ### C9 -/

/-- C9: for the employee listing operation, a search parameter supplied as
the empty string is treated exactly like an absent search parameter — the
handler guards on truthiness of the string, so no search condition is
applied and the response is identical to the same request without search. -/
theorem list_employees_empty_search_eq_absent (s : Store) (page page_size : Nat)
    (department_id : Option Nat) (is_active : Option Bool) :
    list_employees s ⟨page, page_size, department_id, is_active, some ""⟩ =
      list_employees s ⟨page, page_size, department_id, is_active, none⟩ := rfl

/-! ### C2 -/

/-- C2: for every listing request with `page ≥ 1` and `page_size ∈ [1,100]`,
`total` is the number of rows matching the filters before pagination,
`total_pages` is the exact ceiling of `total / page_size` (least multiple
bound, below and above) with a floor of 1 when `total = 0`, `items` is the
filtered set offset by `(page-1)*page_size` and limited to `page_size`, and
a page beyond the last yields an empty `items` list while `total` and
`total_pages` still reflect the full filtered count. -/
theorem list_employees_pagination_spec (s : Store) (p : ListParams)
    (hpage : 1 ≤ p.page) (hps1 : 1 ≤ p.page_size) (hps2 : p.page_size ≤ 100) :
    (list_employees s p).total = (s.employees.filter (fun e => matchesAll p e)).length ∧
    (list_employees s p).items =
      ((s.employees.filter (fun e => matchesAll p e)).drop
        ((p.page - 1) * p.page_size)).take p.page_size ∧
    ((list_employees s p).total = 0 → (list_employees s p).total_pages = 1) ∧
    (0 < (list_employees s p).total →
      (list_employees s p).total ≤ (list_employees s p).total_pages * p.page_size ∧
      (list_employees s p).total_pages * p.page_size <
        (list_employees s p).total + p.page_size) ∧
    ((list_employees s p).total ≤ (p.page - 1) * p.page_size →
      (list_employees s p).items = []) := by
  have hq := employeeQuery_eq_filter s p
  refine ⟨by simp [list_employees, hq], by simp [list_employees, hq], ?_, ?_, ?_⟩
  · intro h
    simp only [list_employees] at h ⊢
    simp [h]
  · intro h
    simp only [list_employees] at h ⊢
    rw [if_pos (by omega)]
    exact ceil_div_spec _ _ (by omega) h
  · intro h
    simp only [list_employees] at h ⊢
    rw [List.drop_eq_nil_of_le h, List.take_nil]

/-- Witness for C2 at a concrete store and concrete parameters. -/
theorem list_employees_pagination_spec_witness :
    (list_employees demoStore ⟨1, 2, none, none, none⟩).total =
      (demoStore.employees.filter
        (fun e => matchesAll ⟨1, 2, none, none, none⟩ e)).length ∧
    (list_employees demoStore ⟨1, 2, none, none, none⟩).items =
      ((demoStore.employees.filter
        (fun e => matchesAll ⟨1, 2, none, none, none⟩ e)).drop ((1 - 1) * 2)).take 2 ∧
    ((list_employees demoStore ⟨1, 2, none, none, none⟩).total = 0 →
      (list_employees demoStore ⟨1, 2, none, none, none⟩).total_pages = 1) ∧
    (0 < (list_employees demoStore ⟨1, 2, none, none, none⟩).total →
      (list_employees demoStore ⟨1, 2, none, none, none⟩).total ≤
        (list_employees demoStore ⟨1, 2, none, none, none⟩).total_pages * 2 ∧
      (list_employees demoStore ⟨1, 2, none, none, none⟩).total_pages * 2 <
        (list_employees demoStore ⟨1, 2, none, none, none⟩).total + 2) ∧
    ((list_employees demoStore ⟨1, 2, none, none, none⟩).total ≤ (1 - 1) * 2 →
      (list_employees demoStore ⟨1, 2, none, none, none⟩).items = []) :=
  list_employees_pagination_spec demoStore ⟨1, 2, none, none, none⟩
    (by decide) (by decide) (by decide)

/-! ### C3 -/

/-- C3: employee creation checks email uniqueness before department
existence, so a payload that passes shape validation but has both a
duplicate email and a nonexistent `department_id` yields `ConflictError`
(409), not `NotFoundError`.  (Shape validation itself runs before the
handler by construction: the handler receives an already-parsed
`EmployeeCreate`.) -/
theorem create_conflict_beats_missing_department (emailOk : String → Bool)
    (s : Store) (p : EmployeeCreate) (t : Time)
    (hvalid : p.validFields emailOk = true)
    (hdup : ∃ e ∈ s.employees, e.email = some p.email)
    (hdept : ∀ d ∈ s.departments, d.id ≠ p.department_id) :
    (create_employee s p t).1 =
      .error (.conflict ("Email " ++ p.email ++ " already exists")) ∧
    respStatus 201 (create_employee s p t).1 = 409 := by
  obtain ⟨e, he, hee⟩ := hdup
  have hfind : (s.employees.find? (fun x => x.email == some p.email)).isSome := by
    rw [List.find?_isSome]
    exact ⟨e, he, by simp [hee]⟩
  obtain ⟨r, hr⟩ := Option.isSome_iff_exists.mp hfind
  simp [create_employee, hr, respStatus, ApiError.status]

def demoDupPayload : EmployeeCreate :=
  ⟨"Dup", "User", "alice@co.com", 99, "Dev", 500, true⟩

/-- Witness for C3: duplicate email and missing department 99 at once. -/
theorem create_conflict_beats_missing_department_witness :
    (create_employee demoStore demoDupPayload 5).1 =
      .error (.conflict ("Email " ++ demoDupPayload.email ++ " already exists")) ∧
    respStatus 201 (create_employee demoStore demoDupPayload 5).1 = 409 :=
  create_conflict_beats_missing_department (fun _ => true) demoStore demoDupPayload 5
    (by decide) ⟨demoEmp1, by decide, by decide⟩ (by decide)

/-! ### C4 -/

/-- C4: a PUT patch setting `email` to the employee's own current email
succeeds (200), while setting it to an email held by a different employee
fails with `ConflictError` (409) — the uniqueness check excludes the row
being updated. -/
theorem update_email_self_allowed_other_conflicts (s : Store) (eid : Nat)
    (emp : EmployeeRow) (t : Time) (ownEmail otherEmail : String)
    (hfind : s.employees.find? (fun e => e.id == eid) = some emp)
    (hown : emp.email = some ownEmail)
    (huniq : ∀ e ∈ s.employees, e.email = some ownEmail → e.id = eid) :
    respStatus 200 (update_employee s eid { email := .set (some ownEmail) } t).1 = 200 ∧
    ((∃ e ∈ s.employees, e.id ≠ eid ∧ e.email = some otherEmail) →
      (update_employee s eid { email := .set (some otherEmail) } t).1 =
        .error (.conflict ("Email " ++ otherEmail ++ " already exists")) ∧
      respStatus 200 (update_employee s eid { email := .set (some otherEmail) } t).1 = 409) := by
  constructor
  · have hnone : s.employees.find?
        (fun e => e.email == some ownEmail && !(e.id == eid)) = none := by
      rw [List.find?_eq_none]
      intro e he
      by_cases h1 : e.email = some ownEmail
      · have h2 := huniq e he h1
        simp [h1, h2]
      · simp [h1]
    simp [update_employee, hfind, deptPatchOk, emailPatchConflict, hnone,
      notNullViolation, FieldPatch.writesNull, respStatus]
  · rintro ⟨e, he, hne, hee⟩
    have hsome : (s.employees.find?
        (fun x => x.email == some otherEmail && !(x.id == eid))).isSome := by
      rw [List.find?_isSome]
      refine ⟨e, he, ?_⟩
      simp [hee, hne]
    simp [update_employee, hfind, deptPatchOk, emailPatchConflict, hsome,
      pyStr, respStatus, ApiError.status]
    rfl

/-- Witness for C4 at the concrete store: employee 1 keeps its own email,
and taking employee 2's email conflicts. -/
theorem update_email_self_allowed_other_conflicts_witness :
    respStatus 200
      (update_employee demoStore 1 { email := .set (some "alice@co.com") } 9).1 = 200 ∧
    ((∃ e ∈ demoStore.employees, e.id ≠ 1 ∧ e.email = some "bob@co.com") →
      (update_employee demoStore 1 { email := .set (some "bob@co.com") } 9).1 =
        .error (.conflict ("Email " ++ "bob@co.com" ++ " already exists")) ∧
      respStatus 200
        (update_employee demoStore 1 { email := .set (some "bob@co.com") } 9).1 = 409) :=
  update_email_self_allowed_other_conflicts demoStore 1 demoEmp1 9
    "alice@co.com" "bob@co.com" (by decide) (by decide) (by decide)

/-! ### C7 -/

/-- C7: every rejected mutating request (create, update, delete) returns the
store exactly as it was; in particular a duplicate-email create returns 409
leaving exactly one row with that email, and a create with a nonexistent
department returns 404 and persists no row. -/
theorem rejected_mutations_leave_store_unchanged :
    (∀ s p t err, (create_employee s p t).1 = .error err → (create_employee s p t).2 = s) ∧
    (∀ s eid u t err,
      (update_employee s eid u t).1 = .error err → (update_employee s eid u t).2 = s) ∧
    (∀ s eid err, (delete_employee s eid).1 = .error err → (delete_employee s eid).2 = s) ∧
    (∀ s p t, (∃ e ∈ s.employees, e.email = some p.email) →
      respStatus 201 (create_employee s p t).1 = 409 ∧
      (create_employee s p t).2 = s ∧
      ((s.employees.filter (fun e => e.email == some p.email)).length = 1 →
        ((create_employee s p t).2.employees.filter
          (fun e => e.email == some p.email)).length = 1)) ∧
    (∀ s p t, (∀ e ∈ s.employees, e.email ≠ some p.email) →
      (∀ d ∈ s.departments, d.id ≠ p.department_id) →
      respStatus 201 (create_employee s p t).1 = 404 ∧ (create_employee s p t).2 = s) := by
  refine ⟨?_, ?_, ?_, ?_, ?_⟩
  · intro s p t err h
    cases h1 : s.employees.find? (fun e => e.email == some p.email) with
    | some r => simp [create_employee, h1]
    | none =>
      cases h2 : s.departments.find? (fun d => d.id == p.department_id) with
      | none => simp [create_employee, h1, h2]
      | some d => simp [create_employee, h1, h2] at h
  · intro s eid u t err h
    cases h1 : s.employees.find? (fun e => e.id == eid) with
    | none => simp [update_employee, h1]
    | some emp =>
      by_cases hd : deptPatchOk s u.department_id
      · by_cases hc : emailPatchConflict s eid u.email
        · simp [update_employee, h1, hd, hc]
        · by_cases hv : notNullViolation u emp
          · simp [update_employee, h1, hd, hc, hv]
          · simp [update_employee, h1, hd, hc, hv] at h
      · simp [update_employee, h1, hd]
  · intro s eid err h
    cases h1 : s.employees.find? (fun e => e.id == eid) with
    | none => simp [delete_employee, h1]
    | some emp => simp [delete_employee, h1] at h
  · intro s p t hdup
    obtain ⟨e, he, hee⟩ := hdup
    have hfind : (s.employees.find? (fun x => x.email == some p.email)).isSome := by
      rw [List.find?_isSome]
      exact ⟨e, he, by simp [hee]⟩
    obtain ⟨r, hr⟩ := Option.isSome_iff_exists.mp hfind
    refine ⟨by simp [create_employee, hr, respStatus, ApiError.status],
            by simp [create_employee, hr], ?_⟩
    intro hone
    simpa [create_employee, hr] using hone
  · intro s p t hnodup hnodept
    have h1 : s.employees.find? (fun e => e.email == some p.email) = none := by
      rw [List.find?_eq_none]
      intro e he
      simp [hnodup e he]
    have h2 : s.departments.find? (fun d => d.id == p.department_id) = none := by
      rw [List.find?_eq_none]
      intro d hd
      simp [hnodept d hd]
    simp [create_employee, h1, h2, respStatus, ApiError.status]

/-- Witness for C7: a duplicate-email create against the concrete store is
rejected with 409 and leaves the store, with its single `alice@co.com` row,
unchanged. -/
theorem rejected_mutations_leave_store_unchanged_witness :
    respStatus 201 (create_employee demoStore demoDupPayload 7).1 = 409 ∧
    (create_employee demoStore demoDupPayload 7).2 = demoStore ∧
    ((demoStore.employees.filter
        (fun e => e.email == some demoDupPayload.email)).length = 1 →
      ((create_employee demoStore demoDupPayload 7).2.employees.filter
        (fun e => e.email == some demoDupPayload.email)).length = 1) :=
  rejected_mutations_leave_store_unchanged.2.2.2.1 demoStore demoDupPayload 7
    ⟨demoEmp1, by decide, by decide⟩

/-! ### C1 -/

/-- C1 counterexample: PUT with an empty patch on employee 1 of the concrete
store returns 200 and changes no data field, but `updated_at` does NOT
transition from null to non-null — no column is written, so `db.commit()`
emits no UPDATE and the `onupdate` hook never fires; the response row still
has `updated_at = none`. -/
theorem empty_patch_leaves_updated_at_null :
    respStatus 200 (update_employee demoStore 1 EmployeeUpdate.empty 9).1 = 200 ∧
    (update_employee demoStore 1 EmployeeUpdate.empty 9).1 = .ok demoEmp1 ∧
    demoEmp1.updated_at = none ∧
    (update_employee demoStore 1 EmployeeUpdate.empty 9).2 = demoStore :=
  ⟨rfl, rfl, rfl, rfl⟩

/-- C1 amended: for every PUT that passes the existence, referential and
uniqueness checks and whose commit does not violate a NOT NULL column
constraint, `updated_at` is set to the modification time exactly when the
patch changes at least one column value (`onupdate` fires only when an
UPDATE is emitted); an empty patch is valid, succeeds with 200, changes no
data field, and leaves `updated_at` unchanged — in particular a null
`updated_at` stays null. -/
theorem update_sets_updated_at_iff_changed (s : Store) (eid : Nat)
    (u : EmployeeUpdate) (t : Time) (emp : EmployeeRow)
    (hfind : s.employees.find? (fun e => e.id == eid) = some emp)
    (hdept : deptPatchOk s u.department_id = true)
    (hconf : emailPatchConflict s eid u.email = false)
    (hnn : notNullViolation u emp = false) :
    (update_employee s eid u t).1 =
      .ok (if patchChanges u emp then { applyPatch u emp with updated_at := some t }
           else applyPatch u emp) ∧
    (update_employee s eid EmployeeUpdate.empty t).1 = .ok emp ∧
    respStatus 200 (update_employee s eid EmployeeUpdate.empty t).1 = 200 := by
  refine ⟨by simp [update_employee, hfind, hdept, hconf, hnn], ?_, ?_⟩ <;>
    simp [update_employee, hfind, EmployeeUpdate.empty, deptPatchOk,
      emailPatchConflict, notNullViolation, FieldPatch.writesNull,
      patchChanges, FieldPatch.changes, applyPatch, FieldPatch.apply, respStatus]

/-- Witness for the amended C1 at a concrete store and patch. -/
theorem update_sets_updated_at_iff_changed_witness :
    (update_employee demoStore 1 { position := .set (some "Lead") } 9).1 =
      .ok (if patchChanges { position := .set (some "Lead") } demoEmp1 then
            { applyPatch { position := .set (some "Lead") } demoEmp1 with
                updated_at := some 9 }
           else applyPatch { position := .set (some "Lead") } demoEmp1) ∧
    (update_employee demoStore 1 EmployeeUpdate.empty 9).1 = .ok demoEmp1 ∧
    respStatus 200 (update_employee demoStore 1 EmployeeUpdate.empty 9).1 = 200 :=
  update_sets_updated_at_iff_changed demoStore 1 { position := .set (some "Lead") } 9
    demoEmp1 (by decide) (by decide) (by decide) (by decide)

/-! ### C6 -/

/-- C6: when the store's rows are in strictly increasing id order (insertion
order, as maintained by autoincrement inserts), the returned items are the
filtered set in that same order with offset and limit applied afterwards,
and are themselves strictly increasing in id — so the same store state and
parameters always yield the same deterministic item sequence. -/
theorem list_employees_items_ordered (s : Store) (p : ListParams)
    (hsorted : s.employees.Pairwise (fun a b => a.id < b.id)) :
    (list_employees s p).items =
      ((employeeQuery s p).drop ((p.page - 1) * p.page_size)).take p.page_size ∧
    (employeeQuery s p).Pairwise (fun a b => a.id < b.id) ∧
    (list_employees s p).items.Pairwise (fun a b => a.id < b.id) := by
  have hq : (employeeQuery s p).Pairwise (fun a b => a.id < b.id) := by
    rw [employeeQuery_eq_filter]
    exact hsorted.filter _
  refine ⟨rfl, hq, ?_⟩
  have hsub : List.Sublist
      (((employeeQuery s p).drop ((p.page - 1) * p.page_size)).take p.page_size)
      (employeeQuery s p) :=
    (List.take_sublist _ _).trans (List.drop_sublist _ _)
  exact hq.sublist hsub

/-- Witness for C6 at the concrete store. -/
theorem list_employees_items_ordered_witness :
    (list_employees demoStore ⟨1, 1, none, some true, none⟩).items =
      ((employeeQuery demoStore ⟨1, 1, none, some true, none⟩).drop ((1 - 1) * 1)).take 1 ∧
    (employeeQuery demoStore ⟨1, 1, none, some true, none⟩).Pairwise
      (fun a b => a.id < b.id) ∧
    (list_employees demoStore ⟨1, 1, none, some true, none⟩).items.Pairwise
      (fun a b => a.id < b.id) :=
  list_employees_items_ordered demoStore ⟨1, 1, none, some true, none⟩ (by decide)

/-! ### C8 -/

/-- C8: each department's `employee_count` as returned by department listing
is the live count of employees referencing it, computed fresh from the rows;
a successful create in department X increases exactly X's live count by 1,
and deleting the created row restores every department listing to its prior
value. -/
theorem department_counts_live (s : Store) (p : EmployeeCreate) (t : Time)
    (hnodup : ∀ e ∈ s.employees, e.email ≠ some p.email)
    (hdept : (s.departments.find? (fun d => d.id == p.department_id)).isSome)
    (hfresh : ∀ e ∈ s.employees, e.id ≠ s.next_id) :
    (∀ r ∈ list_departments s, r.employee_count = employeeCountOf s r.id) ∧
    (∀ did, employeeCountOf (create_employee s p t).2 did =
      employeeCountOf s did + (if did = p.department_id then 1 else 0)) ∧
    list_departments (delete_employee (create_employee s p t).2 s.next_id).2 =
      list_departments s := by
  have hfindE : s.employees.find? (fun e => e.email == some p.email) = none := by
    rw [List.find?_eq_none]
    intro e he
    simp [hnodup e he]
  obtain ⟨d, hd⟩ := Option.isSome_iff_exists.mp hdept
  have hstore : (create_employee s p t).2 =
      ⟨s.departments, s.employees ++ [EmployeeRow.ofCreate p s.next_id t],
       s.next_id + 1⟩ := by
    simp [create_employee, hfindE, hd]
  refine ⟨?_, ?_, ?_⟩
  · intro r hr
    simp only [list_departments, List.mem_map] at hr
    obtain ⟨dep, _, hdep⟩ := hr
    subst hdep
    rfl
  · intro did
    rw [hstore]
    simp only [employeeCountOf, List.filter_append, List.length_append]
    by_cases hdid : did = p.department_id
    · simp [hdid, EmployeeRow.ofCreate]
    · have : ((some p.department_id : Option Nat) == some did) = false := by
        simp [Ne.symm hdid]
      simp [EmployeeRow.ofCreate, this, hdid]
  · rw [hstore]
    have hne : ∀ e ∈ s.employees, ¬((fun e => e.id == s.next_id) e = true) := by
      intro e he
      simp [hfresh e he]
    have hfindD : (s.employees ++ [EmployeeRow.ofCreate p s.next_id t]).find?
        (fun e => e.id == s.next_id) = some (EmployeeRow.ofCreate p s.next_id t) := by
      rw [List.find?_append]
      rw [List.find?_eq_none.mpr hne]
      simp [EmployeeRow.ofCreate]
    have herase : (s.employees ++ [EmployeeRow.ofCreate p s.next_id t]).eraseP
        (fun e => e.id == s.next_id) = s.employees := by
      rw [List.eraseP_append_right _ hne]
      simp [List.eraseP_cons_of_pos, EmployeeRow.ofCreate]
    simp [delete_employee, hfindD, herase, list_departments, employeeCountOf]

/-- Witness for C8: create Carol in department 2 of the concrete store, then
delete her again. -/
theorem department_counts_live_witness :
    employeeCountOf (create_employee demoStore demoPayload 20).2 2 =
      employeeCountOf demoStore 2 + (if 2 = demoPayload.department_id then 1 else 0) ∧
    list_departments (delete_employee (create_employee demoStore demoPayload 20).2
      demoStore.next_id).2 = list_departments demoStore :=
  ⟨(department_counts_live demoStore demoPayload 20 (by decide) (by decide)
      (by decide)).2.1 2,
   (department_counts_live demoStore demoPayload 20 (by decide) (by decide)
      (by decide)).2.2⟩

/-! ### C10 -/

/-- The search string contains no SQL `LIKE` wildcard character. -/
def noWild (cs : List Char) : Prop := ∀ c ∈ cs, c ≠ '%' ∧ c ≠ '_'

instance (cs : List Char) : Decidable (noWild cs) := by
  unfold noWild
  infer_instance

theorem likeMatch_percent_iff (qs cs : List Char) :
    likeMatch ('%' :: qs) cs = true ↔ ∃ t, t <:+ cs ∧ likeMatch qs t = true := by
  simp [likeMatch, List.any_eq_true, List.mem_tails]

theorem likeMatch_plain_percent (ps : List Char) (h : noWild ps) (cs : List Char) :
    likeMatch (ps ++ ['%']) cs = true ↔ ps <+: cs := by
  induction ps generalizing cs with
  | nil =>
    rw [List.nil_append]
    simp [likeMatch, List.any_eq_true, List.mem_tails]
  | cons p ps ih =>
    obtain ⟨hp1, hp2⟩ := h p (List.mem_cons_self p ps)
    have h2 : noWild ps := fun c hc => h c (List.mem_cons_of_mem _ hc)
    have hpb : (p == '%') = false := by simp [hp1]
    cases cs with
    | nil =>
      rw [List.cons_append]
      simp [likeMatch, hpb]
    | cons c cs =>
      rw [List.cons_append]
      simp only [likeMatch, hpb, Bool.false_eq_true, if_false, Bool.and_eq_true,
        Bool.or_eq_true, beq_iff_eq]
      rw [ih h2]
      simp [List.cons_prefix_cons, hp2]

/-- A wildcard-free pattern wrapped in two `%` matches exactly the texts
containing it as a contiguous segment. -/
theorem likeMatch_substring (ps : List Char) (h : noWild ps) (cs : List Char) :
    likeMatch ('%' :: (ps ++ ['%'])) cs = true ↔ ps <:+: cs := by
  rw [likeMatch_percent_iff]
  constructor
  · rintro ⟨t, hts, hm⟩
    exact List.infix_iff_prefix_suffix.mpr ⟨t, (likeMatch_plain_percent ps h t).mp hm, hts⟩
  · intro hinf
    obtain ⟨t, hpre, hsuf⟩ := List.infix_iff_prefix_suffix.mp hinf
    exact ⟨t, hsuf, (likeMatch_plain_percent ps h t).mpr hpre⟩

theorem toNat_ofNat_valid (m : Nat) (h : m < 55296) : (Char.ofNat m).toNat = m := by
  rw [Char.ofNat, dif_pos (Or.inl h)]
  rfl

/-- ASCII lowercasing maps no character onto a `LIKE` wildcard. -/
theorem char_toLower_ne_wild (c : Char) (h1 : c ≠ '%') (h2 : c ≠ '_') :
    c.toLower ≠ '%' ∧ c.toLower ≠ '_' := by
  by_cases hu : c.toNat ≥ 65 ∧ c.toNat ≤ 90
  · have hlow : c.toLower = Char.ofNat (c.toNat + 32) := by
      simp only [Char.toLower]
      rw [if_pos hu]
    have htn : (Char.ofNat (c.toNat + 32)).toNat = c.toNat + 32 :=
      toNat_ofNat_valid _ (by omega)
    rw [hlow]
    have h37 : Char.toNat '%' = 37 := rfl
    have h95 : Char.toNat '_' = 95 := rfl
    have key1 : (Char.ofNat (c.toNat + 32)).toNat ≠ Char.toNat '%' := by
      rw [htn, h37]; omega
    have key2 : (Char.ofNat (c.toNat + 32)).toNat ≠ Char.toNat '_' := by
      rw [htn, h95]; omega
    exact ⟨fun heq => key1 (congrArg Char.toNat heq),
           fun heq => key2 (congrArg Char.toNat heq)⟩
  · have hsame : c.toLower = c := by
      simp only [Char.toLower]
      rw [if_neg hu]
    rw [hsame]
    exact ⟨h1, h2⟩

theorem noWild_lowerChars (s : String) (h : noWild s.data) : noWild (lowerChars s) := by
  intro c hc
  rw [lowerChars, List.mem_map] at hc
  obtain ⟨a, ha, rfl⟩ := hc
  exact char_toLower_ne_wild a (h a ha).1 (h a ha).2

theorem lowerChars_pattern (str : String) :
    lowerChars ("%" ++ str ++ "%") = '%' :: (lowerChars str ++ ['%']) := by
  have h1 : ("%" ++ str ++ "%").data = '%' :: (str.data ++ ['%']) := by
    rw [String.data_append, String.data_append]
    rfl
  rw [lowerChars, h1]
  simp [lowerChars]

theorem colLike_substring (str v : String) (h : noWild str.data) :
    colLike ("%" ++ str ++ "%") (some v) = true ↔
      lowerChars str <:+: lowerChars v := by
  show likeMatch (lowerChars ("%" ++ str ++ "%")) (lowerChars v) = true ↔ _
  rw [lowerChars_pattern]
  exact likeMatch_substring _ (noWild_lowerChars _ h) _

theorem colLike_substring_opt (str : String) (h : noWild str.data) (o : Option String) :
    (colLike ("%" ++ str ++ "%") o = true) ↔
      ∃ v, o = some v ∧ lowerChars str <:+: lowerChars v := by
  cases o with
  | none => simp [colLike]
  | some v => simp [colLike_substring str v h]

def wildEmp : EmployeeRow :=
  ⟨1, some "ab", some "Zed", some "zed@co.com", some 1,
   some "Dev", some 100, some true, some 1, none⟩

def wildStore : Store := ⟨demoDepartments, [wildEmp], 2⟩

/-- C5 counterexample: the search string is spliced into a `LIKE` pattern,
so its `_` acts as a single-character wildcard: searching "a_" returns the
employee whose first name is "ab", although "a_" does not occur as a
(case-insensitive) substring of any of the three searched columns — the
claimed equivalence "included exactly when the search string is a
substring" fails for search strings containing `%` or `_`. -/
theorem search_wildcard_included_without_substring :
    (list_employees wildStore ⟨1, 20, none, none, some "a_"⟩).items = [wildEmp] ∧
    ¬ specSearchMatch "a_" wildEmp := by decide

/-- C5 amended: the search condition compares each of first_name,
last_name, email against the `LIKE` pattern `%search%` case-insensitively
(`%`/`_` in the search string act as wildcards), ANDed with the other
filters; for every search string containing neither `%` nor `_` it is
exactly the spec's case-insensitive substring match across the three
columns. -/
theorem searchPred_iff_substring_when_no_wildcards (str : String) (e : EmployeeRow)
    (hw : noWild str.data) :
    searchPred str e = true ↔ specSearchMatch str e := by
  unfold searchPred specSearchMatch
  simp only [Bool.or_eq_true, colLike_substring_opt str hw]
  exact or_assoc

/-- Witness for the amended C5: wildcard-free search "alice" matches
employee 1 by the `LIKE` condition iff it matches by substring. -/
theorem searchPred_iff_substring_witness :
    searchPred "alice" demoEmp1 = true ↔ specSearchMatch "alice" demoEmp1 :=
  searchPred_iff_substring_when_no_wildcards "alice" demoEmp1 (by decide)

end EmployeeApi
